import Mathlib

/-!
Verification of the multi-mode deployment topology composer of the
`mcp-gateway-registry` CDK project.

The embedding models the CDK entry point (`bin` app), the two stack classes
`McpgwMicroservicesCdkStack` and `McpgwCompleteInfrastructureStack`, and the
Kubernetes-manifest constructs they instantiate.  A run of the program is a
pure function from the raw inputs (CDK context values and environment
variables) plus the ambient entropy (the program's `Math.random()` and
`Date.now()` calls) to either a thrown startup error or the ordered list of
resource declarations the stacks emit.  Each `addManifest` / construct
instantiation becomes one `Resource` value recording its logical id, its
kind, its physical name, the configuration payload entries the source sets,
the persistent-volume-claim names its volumes reference, and the service
names its ingress rules target.
-/

deriving instance DecidableEq for Except

namespace Mcpgw

/-- JavaScript truthiness of an optional string: `undefined` and the empty
string are falsy, every other string is truthy. -/
def truthy : Option String → Bool
  | none => false
  | some s => !(s == "")

/-- The JS expression `a || b` on two optional strings: `a` when `a` is
truthy, otherwise `b` verbatim (which may itself be absent or empty). -/
def jsOr (a b : Option String) : Option String :=
  if truthy a then a else b

/-- The JS expression `a || b || d` with a string literal default `d`:
first truthy source wins, otherwise the default. -/
def mergeD (a b : Option String) (d : String) : String :=
  if truthy a then a.getD "" else if truthy b then b.getD "" else d

/-- The JS expression `o || d` where `o` is an optional string property of
a stack props object. -/
def propOr (o : Option String) (d : String) : String :=
  if truthy o then o.getD "" else d

/-- Value of a leading run of decimal digits. -/
def digitsToNat (l : List Char) : Nat :=
  l.foldl (fun n c => 10 * n + (c.toNat - 48)) 0

/-- Model of JavaScript `parseInt` on the strings this program feeds it:
leading whitespace is skipped, an optional sign is read, then the longest
leading run of decimal digits; `none` models the `NaN` result when no digit
is found.  (The automatic hexadecimal `0x` radix detection of `parseInt` is
not modelled; the program only resolves decimal availability-zone counts.) -/
def jsParseInt (s : String) : Option Int :=
  let l := s.toList.dropWhile (fun c => c == ' ' || c == '\t' || c == '\n' || c == '\r')
  let p : Int × List Char :=
    match l.head? with
    | some c =>
        if c == '-' then ((-1 : Int), l.tail)
        else if c == '+' then ((1 : Int), l.tail)
        else ((1 : Int), l)
    | none => ((1 : Int), l)
  let ds := p.2.takeWhile Char.isDigit
  if ds.isEmpty then none
  else some (p.1 * (digitsToNat ds : Int))

/-- The JS expression `n || d` on a number property, where `n` may be a
number or `NaN` (modelled as `none`); both `NaN` and `0` are falsy. -/
def jsNumOr (n : Option Int) (d : Int) : Int :=
  match n with
  | none => d
  | some v => if v == 0 then d else v

/-- Raw inputs of one invocation: the CDK context values
(`app.node.tryGetContext`) and the environment variables the entry point
and the microservices stack read.  `none` models an unset source. -/
structure RawInputs where
  ctxDeploymentMode : Option String := none
  envDeploymentMode : Option String := none
  ctxClusterName : Option String := none
  envClusterName : Option String := none
  ctxDomainName : Option String := none
  envDomainName : Option String := none
  ctxEfsFileSystemId : Option String := none
  envEfsFileSystemId : Option String := none
  ctxCertificateArn : Option String := none
  envCertificateArn : Option String := none
  ctxAdminPassword : Option String := none
  envAdminPassword : Option String := none
  ctxHostedZoneId : Option String := none
  envHostedZoneId : Option String := none
  ctxCreateCertificate : Option String := none
  envCreateCertificate : Option String := none
  ctxVpcCidr : Option String := none
  envVpcCidr : Option String := none
  ctxMaxAzs : Option String := none
  envMaxAzs : Option String := none
  ctxKubernetesVersion : Option String := none
  envKubernetesVersion : Option String := none
  envCdkDefaultRegion : Option String := none
  envCognitoClientId : Option String := none
  envCognitoClientSecret : Option String := none
  envCognitoUserPoolId : Option String := none
  deriving Repr, DecidableEq

/-- `deploymentMode = tryGetContext('deploymentMode') || DEPLOYMENT_MODE || 'complete'`. -/
def deploymentMode (i : RawInputs) : String :=
  mergeD i.ctxDeploymentMode i.envDeploymentMode "complete"

/-- `clusterName = tryGetContext('clusterName') || CLUSTER_NAME || 'mcp-gateway-registry'`. -/
def clusterName (i : RawInputs) : String :=
  mergeD i.ctxClusterName i.envClusterName "mcp-gateway-registry"

/-- `domainName = tryGetContext('domainName') || DOMAIN_NAME` (no default). -/
def domainName (i : RawInputs) : Option String :=
  jsOr i.ctxDomainName i.envDomainName

/-- `efsFileSystemId = tryGetContext('efsFileSystemId') || EFS_FILE_SYSTEM_ID`. -/
def efsFileSystemId (i : RawInputs) : Option String :=
  jsOr i.ctxEfsFileSystemId i.envEfsFileSystemId

/-- `certificateArn = tryGetContext('certificateArn') || CERTIFICATE_ARN`. -/
def certificateArn (i : RawInputs) : Option String :=
  jsOr i.ctxCertificateArn i.envCertificateArn

/-- `adminPassword = tryGetContext('adminPassword') || ADMIN_PASSWORD`. -/
def adminPassword (i : RawInputs) : Option String :=
  jsOr i.ctxAdminPassword i.envAdminPassword

/-- `hostedZoneId = tryGetContext('hostedZoneId') || HOSTED_ZONE_ID`. -/
def hostedZoneId (i : RawInputs) : Option String :=
  jsOr i.ctxHostedZoneId i.envHostedZoneId

/-- `createCertificate = tryGetContext('createCertificate') || CREATE_CERTIFICATE === 'true'`:
a truthy context value wins, otherwise the flag is set iff the environment
variable equals exactly the string `true`. -/
def createCertificate (i : RawInputs) : Bool :=
  truthy i.ctxCreateCertificate || (i.envCreateCertificate == some "true")

/-- `vpcCidr = tryGetContext('vpcCidr') || VPC_CIDR || '10.0.0.0/16'`. -/
def vpcCidr (i : RawInputs) : String :=
  mergeD i.ctxVpcCidr i.envVpcCidr "10.0.0.0/16"

/-- The merged string fed to `parseInt` for `maxAzs`:
`tryGetContext('maxAzs') || MAX_AZS || '3'`. -/
def maxAzsRaw (i : RawInputs) : String :=
  mergeD i.ctxMaxAzs i.envMaxAzs "3"

/-- `maxAzs = parseInt(tryGetContext('maxAzs') || MAX_AZS || '3')`;
`none` models the `NaN` produced on a parse failure. -/
def maxAzs (i : RawInputs) : Option Int :=
  jsParseInt (maxAzsRaw i)

/-- `kubernetesVersion = tryGetContext('kubernetesVersion') || KUBERNETES_VERSION || '1.28'`. -/
def kubernetesVersionRaw (i : RawInputs) : String :=
  mergeD i.ctxKubernetesVersion i.envKubernetesVersion "1.28"

/-- The ternary selecting the EKS version object:
`kv === '1.28' ? V1_28 : kv === '1.27' ? V1_27 : V1_28`. -/
def eksVersion (kv : String) : String :=
  if kv == "1.28" then "1.28" else if kv == "1.27" then "1.27" else "1.28"

/-- Stack region: `process.env.CDK_DEFAULT_REGION || 'us-east-1'`. -/
def region (i : RawInputs) : String :=
  propOr i.envCdkDefaultRegion "us-east-1"

/-- The ambient nondeterminism of one invocation: the two `Math.random()`
calls building the workload `secretKey` and the `Date.now()` call building
the ConfigMap `SECRET_KEY`. -/
structure Entropy where
  rand1 : String
  rand2 : String
  nowMs : Nat
  deriving Repr, DecidableEq

/-- `Math.random().toString(36).substring(2,15) + Math.random().toString(36).substring(2,15)`. -/
def secretKeyOf (e : Entropy) : String :=
  e.rand1 ++ e.rand2

/-- `` `auto-generated-secret-key-cdk-${Date.now()}` ``. -/
def configMapSecretKey (e : Entropy) : String :=
  "auto-generated-secret-key-cdk-" ++ toString e.nowMs

/-- One emitted resource declaration: logical id (the construct /
`addManifest` id), resource kind, physical (metadata) name, the
configuration payload entries the source sets (environment bindings,
ConfigMap data, selected construct properties), the PVC claim names the
declaration's volumes reference, and the service names its routing rules
target.  Indirect `valueFrom` env references are not payload entries. -/
structure Resource where
  logicalId : String
  kind : String
  name : String := ""
  payload : List (String × String) := []
  claimRefs : List String := []
  routeTargets : List String := []
  deriving Repr, DecidableEq

/-- Startup errors the entry point and `setupCertificate` can throw. -/
inductive PipelineError
  | missingDomainName
  | missingAdminPassword
  | missingEfsFileSystemId
  | invalidDeploymentMode (mode : String)
  | missingCertificateConfig
  deriving Repr, DecidableEq

/-- The certificate a stack ends up using: imported from an existing ARN,
or newly created for a domain name. -/
inductive CertRef
  | imported (arn : String)
  | created (dn : String)
  deriving Repr, DecidableEq

/-- The `certificateArn` string handed to the ALB ingress: the imported
ARN, or the deploy-time token of the created certificate. -/
def CertRef.arn : CertRef → String
  | .imported a => a
  | .created _ => "<McpGatewayCertificate.certificateArn>"

/-! ## Kubernetes-manifest constructs

Each construct class under `lib/k8s-manifests` becomes one function from its
props to the list of declarations it adds, in `addManifest` order. -/

/-- The `EfsPvc` construct: an EFS `StorageClass` named `efs-sc` and a
`PersistentVolumeClaim` named `efs-pvc`. -/
def efsPvcDecls (ns efsId : String) : List Resource :=
  [ { logicalId := "EfsStorageClass", kind := "StorageClass", name := "efs-sc",
      payload := [("provisioningMode", "efs-ap"), ("fileSystemId", efsId),
                  ("directoryPerms", "755"), ("gidRangeStart", "1000"),
                  ("gidRangeEnd", "2000"), ("basePath", "/mcp-gateway")] },
    { logicalId := "EfsPvc", kind := "PersistentVolumeClaim", name := "efs-pvc",
      payload := [("namespace", ns), ("storageClassName", "efs-sc"),
                  ("storage", "100Gi")] } ]

/-- The `AuthServerDeployment` construct: deployment (whose pod volume
references claim name `efs-claim`), service, and HPA. -/
def authServerDecls (ns adminUser adminPassword secretKey registryUrl
    authServerExternalUrl cognitoClientId cognitoClientSecret
    cognitoUserPoolId awsRegion : String) : List Resource :=
  [ { logicalId := "AuthServerDeployment", kind := "Deployment", name := "auth-server",
      payload := [("namespace", ns), ("HOME", "/app"), ("PYTHONUNBUFFERED", "1"),
                  ("REGISTRY_URL", registryUrl), ("SECRET_KEY", secretKey),
                  ("ADMIN_USER", adminUser), ("ADMIN_PASSWORD", adminPassword),
                  ("AUTH_SERVER_EXTERNAL_URL", authServerExternalUrl),
                  ("COGNITO_CLIENT_ID", cognitoClientId),
                  ("COGNITO_CLIENT_SECRET", cognitoClientSecret),
                  ("COGNITO_USER_POOL_ID", cognitoUserPoolId),
                  ("AWS_REGION", awsRegion)],
      claimRefs := ["efs-claim"] },
    { logicalId := "AuthServerService", kind := "Service", name := "auth-server",
      payload := [("namespace", ns), ("port", "8888")] },
    { logicalId := "AuthServerHPA", kind := "HorizontalPodAutoscaler",
      name := "auth-server-hpa", payload := [("namespace", ns)] } ]

/-- The `RegistryDeployment` construct: deployment (pod volume references
claim name `efs-claim`), service, and HPA. -/
def registryDecls (ns adminUser adminPassword secretKey domainName
    authServerUrl authServerExternalUrl registryUrl efsId cognitoClientId
    cognitoClientSecret cognitoUserPoolId awsRegion : String) : List Resource :=
  [ { logicalId := "RegistryDeployment", kind := "Deployment", name := "registry",
      payload := [("namespace", ns), ("HOME", "/app"), ("PYTHONUNBUFFERED", "1"),
                  ("DEBIAN_FRONTEND", "noninteractive"),
                  ("SECRET_KEY", secretKey), ("ADMIN_USER", adminUser),
                  ("ADMIN_PASSWORD", adminPassword),
                  ("AUTH_SERVER_URL", authServerUrl),
                  ("AUTH_SERVER_EXTERNAL_URL", authServerExternalUrl),
                  ("REGISTRY_URL", registryUrl), ("DOMAIN_NAME", domainName),
                  ("COGNITO_CLIENT_ID", cognitoClientId),
                  ("COGNITO_CLIENT_SECRET", cognitoClientSecret),
                  ("COGNITO_USER_POOL_ID", cognitoUserPoolId),
                  ("AWS_REGION", awsRegion),
                  ("EMBEDDINGS_MODEL_NAME", "all-MiniLM-L6-v2"),
                  ("EMBEDDINGS_MODEL_DIMENSIONS", "384"),
                  ("EFS_FILE_SYSTEM_ID", efsId)],
      claimRefs := ["efs-claim"] },
    { logicalId := "RegistryService", kind := "Service", name := "registry",
      payload := [("namespace", ns), ("port", "7860")] },
    { logicalId := "RegistryHPA", kind := "HorizontalPodAutoscaler",
      name := "registry-hpa", payload := [("namespace", ns)] } ]

/-- The `CurrentTimeServerDeployment` construct (pod volume references claim
name `efs-pvc`). -/
def currentTimeServerDecls (ns : String) : List Resource :=
  [ { logicalId := "CurrentTimeServerDeployment", kind := "Deployment",
      name := "currenttime-server",
      payload := [("namespace", ns), ("PORT", "8000"), ("PYTHONUNBUFFERED", "1"),
                  ("MCP_SERVER_NAME", "currenttime-server")],
      claimRefs := ["efs-pvc"] },
    { logicalId := "CurrentTimeServerService", kind := "Service",
      name := "currenttime-server", payload := [("namespace", ns), ("port", "8000")] } ]

/-- The `FinInfoServerDeployment` construct (pod volume references claim
name `efs-pvc`). -/
def finInfoServerDecls (ns : String) : List Resource :=
  [ { logicalId := "FinInfoServerDeployment", kind := "Deployment",
      name := "fininfo-server",
      payload := [("namespace", ns), ("PORT", "8001"), ("PYTHONUNBUFFERED", "1"),
                  ("MCP_SERVER_NAME", "fininfo-server")],
      claimRefs := ["efs-pvc"] },
    { logicalId := "FinInfoServerService", kind := "Service",
      name := "fininfo-server", payload := [("namespace", ns), ("port", "8001")] } ]

/-- The `FakeToolsServerDeployment` construct (pod volume references claim
name `efs-pvc`). -/
def fakeToolsServerDecls (ns : String) : List Resource :=
  [ { logicalId := "FakeToolsServerDeployment", kind := "Deployment",
      name := "faketools-server",
      payload := [("namespace", ns), ("PORT", "8002"), ("PYTHONUNBUFFERED", "1"),
                  ("MCP_SERVER_NAME", "faketools-server")],
      claimRefs := ["efs-pvc"] },
    { logicalId := "FakeToolsServerService", kind := "Service",
      name := "faketools-server", payload := [("namespace", ns), ("port", "8002")] } ]

/-- The `McpGatewayServerDeployment` construct (pod volume references claim
name `efs-pvc`). -/
def mcpGatewayServerDecls (ns : String) : List Resource :=
  [ { logicalId := "McpGatewayServerDeployment", kind := "Deployment",
      name := "mcpgw-server",
      payload := [("namespace", ns), ("PORT", "8003"), ("PYTHONUNBUFFERED", "1"),
                  ("MCP_SERVER_NAME", "mcpgw-server")],
      claimRefs := ["efs-pvc"] },
    { logicalId := "McpGatewayServerService", kind := "Service",
      name := "mcpgw-server", payload := [("namespace", ns), ("port", "8003")] } ]

/-- The `AlbIngress` construct: one `Ingress` whose path rules target the
six microservice services. -/
def albIngressDecls (ns dn certArn : String) : List Resource :=
  [ { logicalId := "RegistryIngress", kind := "Ingress", name := "registry-ingress",
      payload := [("namespace", ns), ("host", dn), ("certificate-arn", certArn)],
      routeTargets := ["registry", "auth-server", "mcpgw-server",
                       "currenttime-server", "fininfo-server", "faketools-server"] } ]

/-- The `mcp-registry` Namespace manifest both stacks add. -/
def mcpRegistryNamespaceDecl (ns : String) : Resource :=
  { logicalId := "McpRegistryNamespace", kind := "Namespace", name := ns }

/-- The `McpGatewayConfigMap` manifest; its `SECRET_KEY` entry embeds
`Date.now()`. -/
def mcpGatewayConfigMapDecl (ns adminUser awsRegion dn efsId cn : String)
    (e : Entropy) : Resource :=
  { logicalId := "McpGatewayConfigMap", kind := "ConfigMap",
    name := "mcp-gateway-config",
    payload := [("namespace", ns), ("ADMIN_USER", adminUser),
                ("SECRET_KEY", configMapSecretKey e),
                ("AWS_REGION", awsRegion),
                ("AUTH_SERVER_URL", "http://auth-server:8888"),
                ("REGISTRY_URL", "http://registry:7860"),
                ("MCPGW_SERVER_URL", "http://mcpgw-server:8003"),
                ("CURRENTTIME_SERVER_URL", "http://currenttime-server:8000"),
                ("FININFO_SERVER_URL", "http://fininfo-server:8001"),
                ("FAKETOOLS_SERVER_URL", "http://faketools-server:8002"),
                ("DOMAIN_NAME", dn), ("EFS_FILE_SYSTEM_ID", efsId),
                ("CLUSTER_NAME", cn)] }

/-- The `McpGatewaySecret` manifest. -/
def mcpGatewaySecretDecl (ns adminPassword : String) : Resource :=
  { logicalId := "McpGatewaySecret", kind := "Secret", name := "mcp-gateway-secrets",
    payload := [("namespace", ns), ("admin-password", adminPassword),
                ("polygon-api-key", ""), ("github-client-id", ""),
                ("github-client-secret", "")] }

/-! ## `McpgwMicroservicesCdkStack` (application-only mode) -/

/-- The new-certificate declaration of the microservices stack (DNS
validation against the hosted zone when one is given). -/
def mcpGatewayCertAppOnly (dn : String) (hz : Option String) : Resource :=
  { logicalId := "McpGatewayCertificate", kind := "Certificate",
    payload := [("domainName", dn),
                ("validation", if truthy hz then "dns:hostedZone" else "dns:default")] }

/-- `McpgwMicroservicesCdkStack.setupCertificate`: an existing ARN wins,
else a new certificate is declared when `createCertificate` is set, else
the constructor throws. -/
def setupCertificate (certArn : Option String) (createCert : Bool)
    (dn : String) (hz : Option String) :
    Except PipelineError (CertRef × List Resource) :=
  if truthy certArn then .ok (.imported (certArn.getD ""), [])
  else if createCert then .ok (.created dn, [mcpGatewayCertAppOnly dn hz])
  else .error .missingCertificateConfig

/-- Declarations of `deployMicroservicesArchitecture`, in construct order.
`cogId`/`cogSecret`/`cogPool` are the optional props which fall back to the
`COGNITO_*` environment variables and then to the empty string. -/
def deployMicroservicesArchitectureDecls (cnP : Option String)
    (dn efsId ap : String) (adminUserP : Option String)
    (cogId cogSecret cogPool : Option String)
    (awsRegion : String) (cert : CertRef) (e : Entropy) : List Resource :=
  let cn := propOr cnP "mcp-gateway-registry"
  let ns := "mcp-registry"
  let au := propOr adminUserP "admin"
  let sk := secretKeyOf e
  [mcpRegistryNamespaceDecl ns]
  ++ efsPvcDecls ns efsId
  ++ [ mcpGatewayConfigMapDecl ns au awsRegion dn efsId cn e,
       mcpGatewaySecretDecl ns ap ]
  ++ authServerDecls ns au ap sk "http://registry:7860" ("https://" ++ dn)
       (propOr cogId "") (propOr cogSecret "") (propOr cogPool "") awsRegion
  ++ registryDecls ns au ap sk dn "http://auth-server:8888" ("https://" ++ dn)
       "http://registry:7860" efsId
       (propOr cogId "") (propOr cogSecret "") (propOr cogPool "") awsRegion
  ++ currentTimeServerDecls ns
  ++ finInfoServerDecls ns
  ++ fakeToolsServerDecls ns
  ++ mcpGatewayServerDecls ns
  ++ albIngressDecls ns dn cert.arn

/-- The whole `McpgwMicroservicesCdkStack` constructor: certificate setup
first (its declaration, if any, precedes the architecture), then the
microservices architecture.  (`CfnOutput` values are not resource
declarations and are not modelled; the imported EKS cluster reference
creates no declaration.) -/
def mcpgwMicroservicesCdkStack (cnP : Option String) (dn efsId : String)
    (certArn : Option String) (ap : String) (adminUserP hz : Option String)
    (createCert : Bool) (cogId cogSecret cogPool : Option String)
    (awsRegion : String) (e : Entropy) :
    Except PipelineError (CertRef × List Resource) :=
  match setupCertificate certArn createCert dn hz with
  | .error err => .error err
  | .ok (cert, certDecls) =>
      .ok (cert, certDecls ++
        deployMicroservicesArchitectureDecls cnP dn efsId ap adminUserP
          cogId cogSecret cogPool awsRegion cert e)

/-! ## `McpgwCompleteInfrastructureStack` (complete and infrastructure-only) -/

/-- Deploy-time token of the created EFS file system's id, referenced by
the in-cluster storage declarations and the ConfigMap. -/
def efsFileSystemIdToken : String := "<McpEfs.fileSystemId>"

/-- Deploy-time token of the user-pool client id. -/
def userPoolClientIdToken : String := "<McpUserPoolClient.userPoolClientId>"

/-- Deploy-time token of the user-pool client secret. -/
def userPoolClientSecretToken : String := "<McpUserPoolClient.userPoolClientSecret>"

/-- Deploy-time token of the user-pool id. -/
def userPoolIdToken : String := "<McpUserPool.userPoolId>"

/-- JS template interpolation of a possibly-undefined string:
`undefined` prints as the string `undefined`. -/
def jsInterp (o : Option String) : String := o.getD "undefined"

/-- The cognito callback-URL list the entry point passes, which is also the
stack-side fallback list. -/
def cognitoCallbackUrlList (dn : String) : List String :=
  [ "http://localhost:9090/callback",
    "http://localhost/oauth2/callback/cognito",
    "http://localhost:8888/oauth2/callback/cognito",
    "https://" ++ dn ++ "/oauth2/callback/cognito" ]

/-- The cognito logout-URL list the entry point passes, which is also the
stack-side fallback list. -/
def cognitoLogoutUrlList (dn : String) : List String :=
  [ "https://" ++ dn ++ "/auth/logout", "https://" ++ dn ++ "/logout" ]

/-- The new-certificate declaration of the complete stack (wildcard SAN,
certificate name, hosted-zone or manual DNS validation). -/
def mcpGatewayCertComplete (dn : String) (hz : Option String) : Resource :=
  { logicalId := "McpGatewayCertificate", kind := "Certificate",
    payload := [("domainName", dn),
                ("subjectAlternativeNames", "*." ++ dn),
                ("certificateName", "mcp-gateway-" ++ dn),
                ("validation", if truthy hz then "dns:hostedZone" else "dns:manual")] }

/-- `McpgwCompleteInfrastructureStack.createCertificate`: an existing ARN is
imported without a declaration; otherwise a new certificate (with wildcard
SAN and a certificate name) is declared, with hosted-zone or manual DNS
validation. -/
def completeStackCertificate (certArn hz : Option String) (dn : String) :
    CertRef × List Resource :=
  if truthy certArn then (.imported (certArn.getD ""), [])
  else (.created dn, [mcpGatewayCertComplete dn hz])

/-- Infrastructure declarations of the complete stack, in constructor
order: VPC, EFS, EKS cluster, certificate, Cognito resources, and the core
addons (CoreDNS, pod identity, metrics server, external DNS, load-balancer
controller, EFS CSI driver with storage class and persistent volume).
Emitted in every mode of this stack; none of them reads the entropy. -/
def completeInfraDecls (stackName dn : String) (certArn hz : Option String)
    (vc : Option String) (maz : Option Int) (cnP kv upnP : Option String)
    (cb lo : Option (List String)) : CertRef × List Resource :=
  let low := stackName.toLower
  let cn := propOr cnP "mcp-gateway-registry"
  let (cert, certDecls) := completeStackCertificate certArn hz dn
  (cert,
    [ { logicalId := "McpVpc", kind := "Vpc",
        payload := [("cidr", propOr vc "10.0.0.0/16"),
                    ("maxAzs", toString (jsNumOr maz 3)), ("natGateways", "1")] },
      { logicalId := "McpVpcFlowLog", kind := "FlowLog" },
      { logicalId := "McpEfs", kind := "FileSystem",
        payload := [("encrypted", "true")] },
      { logicalId := "McpEfsAccessPoint", kind := "AccessPoint",
        payload := [("path", "/mcp-gateway")] },
      { logicalId := "KubectlLayer", kind := "LambdaLayer" },
      { logicalId := "McpCluster", kind := "FargateCluster",
        payload := [("clusterName", cn), ("version", propOr kv "1.28")] } ]
    ++ certDecls
    ++ [ { logicalId := "McpUserPool", kind := "UserPool",
           name := if truthy upnP then upnP.getD ""
                   else "mcp-gateway-users-" ++ jsInterp cnP },
         { logicalId := "McpUserPoolClient", kind := "UserPoolClient",
           name := "mcp-gateway-client",
           payload := [("callbackUrls",
                        String.intercalate "," (cb.getD (cognitoCallbackUrlList dn))),
                       ("logoutUrls",
                        String.intercalate "," (lo.getD (cognitoLogoutUrlList dn)))] },
         { logicalId := "McpAdminGroup", kind := "UserPoolGroup",
           name := "mcp-registry-admin" },
         { logicalId := "McpUserGroup", kind := "UserPoolGroup",
           name := "mcp-registry-user" },
         { logicalId := "McpResourceServer", kind := "UserPoolResourceServer",
           name := "mcp-servers-unrestricted" },
         { logicalId := "McpM2MClient", kind := "UserPoolClient",
           name := "mcp-agent-client" },
         { logicalId := "McpUserPoolDomain", kind := "UserPoolDomain",
           payload := [("domainPrefix", "mcp-gateway-" ++ jsInterp cnP)] },
         { logicalId := "McpAdminUser", kind := "UserPoolUser", name := "admin",
           payload := [("email", "admin@" ++ dn)] },
         { logicalId := "AdminUserGroupAttachment", kind := "UserPoolUserToGroupAttachment" },
         { logicalId := "CoreDnsAddon", kind := "Addon",
           payload := [("addonName", "coredns"), ("addonVersion", "v1.10.1-eksbuild.4")] },
         { logicalId := "PodIdentityAddon", kind := "Addon",
           payload := [("addonName", "eks-pod-identity-agent")] },
         { logicalId := "MetricsServer", kind := "HelmChart",
           payload := [("chart", "metrics-server"), ("version", "3.12.1")] },
         { logicalId := "ExternalDns", kind := "ServiceAccount",
           name := "external-dns-" ++ low },
         { logicalId := "ExternalDnsChart", kind := "HelmChart",
           payload := [("chart", "external-dns"), ("version", "1.14.3"),
                       ("serviceAccountName", "external-dns-" ++ low)] },
         { logicalId := "AWSLoadBalancerController", kind := "ServiceAccount",
           name := "aws-load-balancer-controller-" ++ low },
         { logicalId := "AWSLoadBalancerControllerChart", kind := "HelmChart",
           payload := [("chart", "aws-load-balancer-controller"), ("clusterName", cn),
                       ("serviceAccountName", "aws-load-balancer-controller-" ++ low)] },
         { logicalId := "EfsCsiController", kind := "ServiceAccount",
           name := "efs-csi-controller-sa-" ++ low },
         { logicalId := "AwsEfsCsiDriver", kind := "HelmChart",
           payload := [("chart", "aws-efs-csi-driver"),
                       ("serviceAccountName", "efs-csi-controller-sa-" ++ low)] },
         { logicalId := "EfsStorageClass", kind := "StorageClass", name := "efs-sc",
           payload := [("provisioningMode", "efs-ap"),
                       ("fileSystemId", efsFileSystemIdToken),
                       ("directoryPerms", "755")] },
         { logicalId := "EfsPersistentVolume", kind := "PersistentVolume",
           name := "efs-pv",
           payload := [("volumeHandle", efsFileSystemIdToken),
                       ("path", "/mcp-gateway"), ("storage", "5Gi")] } ])

/-- Application declarations of the complete stack, emitted only when
`deployApplications !== false`: required namespaces, application Fargate
profiles, container-insights components, then the MCP Gateway microservices
(namespace, Fargate profile with its inline pod-execution role, EFS PVC,
ConfigMap, Secret, the six workloads, and the ALB ingress). -/
def completeAppDecls (stackName dn ap : String) (adminUserP cnP : Option String)
    (awsRegion : String) (cert : CertRef) (e : Entropy) : List Resource :=
  let low := stackName.toLower
  let cn := propOr cnP "mcp-gateway-registry"
  let ns := "mcp-registry"
  let au := propOr adminUserP "admin"
  let sk := secretKeyOf e
  [ { logicalId := "CloudWatchNamespace", kind := "Namespace",
      name := "amazon-cloudwatch" },
    { logicalId := "ApplicationNamespace", kind := "Namespace",
      name := "kubeflow-user-example-com" },
    { logicalId := "MonitoringProfile", kind := "FargateProfile",
      name := "monitoring-profile" },
    { logicalId := "ApplicationProfile", kind := "FargateProfile",
      name := "application-profile" },
    { logicalId := "CloudWatchAgent", kind := "ServiceAccount",
      name := "cloudwatch-agent-" ++ low },
    { logicalId := "FluentBit", kind := "ServiceAccount",
      name := "fluent-bit-" ++ low },
    { logicalId := "FluentBitDeployment", kind := "Deployment", name := "fluent-bit",
      payload := [("namespace", "amazon-cloudwatch"), ("AWS_REGION", awsRegion),
                  ("CLUSTER_NAME", cn)] },
    mcpRegistryNamespaceDecl ns,
    { logicalId := "McpRegistryFargateProfile", kind := "FargateProfile" } ]
  ++ efsPvcDecls ns efsFileSystemIdToken
  ++ [ mcpGatewayConfigMapDecl ns au awsRegion dn efsFileSystemIdToken cn e,
       mcpGatewaySecretDecl ns ap ]
  ++ authServerDecls ns au ap sk "http://registry:7860" ("https://" ++ dn)
       userPoolClientIdToken userPoolClientSecretToken userPoolIdToken awsRegion
  ++ registryDecls ns au ap sk dn "http://auth-server:8888" ("https://" ++ dn)
       "http://registry:7860" efsFileSystemIdToken
       userPoolClientIdToken userPoolClientSecretToken userPoolIdToken awsRegion
  ++ currentTimeServerDecls ns
  ++ finInfoServerDecls ns
  ++ fakeToolsServerDecls ns
  ++ mcpGatewayServerDecls ns
  ++ albIngressDecls ns dn cert.arn

/-- The whole `McpgwCompleteInfrastructureStack` constructor.  The
`createCertificate` prop is never read by this stack (the certificate
branch only tests `certificateArn`), mirrored by the unused binder. -/
def mcpgwCompleteInfrastructureStack (stackName dn ap : String)
    (adminUserP hz certArn : Option String) (_createCert : Bool)
    (vc : Option String) (maz : Option Int) (cnP kv upnP : Option String)
    (cb lo : Option (List String)) (deployApplications : Option Bool)
    (awsRegion : String) (e : Entropy) : CertRef × List Resource :=
  let (cert, infra) := completeInfraDecls stackName dn certArn hz vc maz cnP kv upnP cb lo
  (cert, infra ++
    (if deployApplications != some false then
       completeAppDecls stackName dn ap adminUserP cnP awsRegion cert e
     else []))

/-! ## The CDK entry point (`bin` app) -/

/-- The props-applied `McpgwCompleteInfrastructureStack` construction the
entry point performs for the complete and infrastructure-only modes, which
differ only in stack id and in the `deployApplications` prop. -/
def completeModeResult (i : RawInputs) (stackName : String)
    (deployApps : Option Bool) (e : Entropy) : CertRef × List Resource :=
  let dn := (domainName i).getD ""
  mcpgwCompleteInfrastructureStack stackName dn ((adminPassword i).getD "")
    none (hostedZoneId i) (certificateArn i)
    (createCertificate i || !truthy (certificateArn i))
    (some (vpcCidr i)) (maxAzs i) (some (clusterName i))
    (some (eksVersion (kubernetesVersionRaw i)))
    (some ("mcp-gateway-users-" ++ clusterName i))
    (some (cognitoCallbackUrlList dn)) (some (cognitoLogoutUrlList dn))
    deployApps (region i) e

/-- The props-applied `McpgwMicroservicesCdkStack` construction the entry
point performs for the application-only mode. -/
def appOnlyModeResult (i : RawInputs) (e : Entropy) :
    Except PipelineError (CertRef × List Resource) :=
  mcpgwMicroservicesCdkStack (some (clusterName i)) ((domainName i).getD "")
    ((efsFileSystemId i).getD "") (certificateArn i)
    ((adminPassword i).getD "") none (hostedZoneId i)
    (createCertificate i || !truthy (certificateArn i))
    i.envCognitoClientId i.envCognitoClientSecret i.envCognitoUserPoolId
    (region i) e

/-- The full entry-point program: resolves parameters, validates
`domainName` and `adminPassword`, dispatches on the deployment mode, and
constructs the selected stack.  Returns the certificate the stack uses and
the ordered resource declarations, or the thrown startup error. -/
def cdkAppFull (i : RawInputs) (e : Entropy) :
    Except PipelineError (CertRef × List Resource) :=
  let dm := deploymentMode i
  if !truthy (domainName i) then .error .missingDomainName
  else if !truthy (adminPassword i) then .error .missingAdminPassword
  else if dm == "complete" then
    .ok (completeModeResult i "McpgwCompleteInfrastructureStack" none e)
  else if dm == "infrastructure-only" then
    .ok (completeModeResult i "McpgwInfrastructureStackFresh" (some false) e)
  else if dm == "application-only" then
    if !truthy (efsFileSystemId i) then .error .missingEfsFileSystemId
    else appOnlyModeResult i e
  else .error (.invalidDeploymentMode dm)

/-- The deployment graph of one invocation: the emitted resource
declarations, or the startup error. -/
def cdkApp (i : RawInputs) (e : Entropy) :
    Except PipelineError (List Resource) :=
  (cdkAppFull i e).map Prod.snd

/-! ## Derived views of a deployment graph -/

/-- Blank out the values of the `SECRET_KEY` payload entries — exactly the
entries whose values embed `Math.random()` / `Date.now()` material. -/
def scrubSecrets (g : List Resource) : List Resource :=
  g.map (fun r =>
    { r with payload :=
        (r.payload.map (fun p => if p.1 == "SECRET_KEY" then (p.1, "") else p)) })

/-- The dependency-relevant projection of a declaration: its logical name
together with its outgoing edges (storage-claim references and ingress
routing targets). -/
def edgeProj (r : Resource) : String × List String × List String :=
  (r.logicalId, r.claimRefs, r.routeTargets)

/-- The same raw inputs with the deployment mode overridden through the
context (the highest-precedence source). -/
def withMode (i : RawInputs) (m : String) : RawInputs :=
  { i with ctxDeploymentMode := some m, envDeploymentMode := none }

/-- The storage-claim references of a graph that no
`PersistentVolumeClaim` declaration of the same graph produces, tagged with
the referencing declaration's logical name. -/
def danglingClaimRefs (g : List Resource) : List (String × String) :=
  (g.map (fun r =>
    (r.claimRefs.filter (fun c =>
      !(g.any (fun p => p.kind == "PersistentVolumeClaim" && p.name == c)))).map
        (fun c => (r.logicalId, c)))).flatten

/-! ## Concrete sample inputs -/

/-- Sample entropy of a first invocation. -/
def sampleEntropy : Entropy := ⟨"aaa", "bbb", 0⟩

/-- Sample entropy of a second, independent invocation. -/
def sampleEntropy2 : Entropy := ⟨"ccc", "ddd", 1⟩

/-- Valid application-only invocation. -/
def appOnlyInputs : RawInputs :=
  { ctxDeploymentMode := some "application-only",
    ctxDomainName := some "x.example.com", ctxAdminPassword := some "p",
    ctxEfsFileSystemId := some "fs-123" }

/-- Application-only invocation with no other parameter set. -/
def appOnlyNoParams : RawInputs := { ctxDeploymentMode := some "application-only" }

/-- Application-only invocation with credentials but no filesystem id. -/
def appOnlyNoEfs : RawInputs :=
  { ctxDeploymentMode := some "application-only",
    ctxDomainName := some "x.example.com", ctxAdminPassword := some "p" }

/-- Valid complete-mode invocation (mode defaulted). -/
def completeInputs : RawInputs :=
  { ctxDomainName := some "x.example.com", ctxAdminPassword := some "p" }

/-- Complete-mode invocation with no parameters at all. -/
def completeNoParams : RawInputs := { ctxDeploymentMode := some "complete" }

/-- Complete-mode invocation missing only the admin password. -/
def completeNoAp : RawInputs :=
  { ctxDeploymentMode := some "complete", ctxDomainName := some "x.example.com" }

/-- Inputs whose `createCertificate` environment variable is a non-empty
string other than `true`. -/
def envCreateYesInputs : RawInputs := { envCreateCertificate := some "yes" }

/-- Valid complete-mode invocation with a non-numeric `maxAzs`. -/
def badMaxAzsInputs : RawInputs :=
  { ctxDomainName := some "x.example.com", ctxAdminPassword := some "p",
    ctxMaxAzs := some "abc" }

/-- Invocation with an unrecognized deployment mode and nothing else. -/
def bogusModeInputs : RawInputs := { ctxDeploymentMode := some "bogus" }

/-- Invocation with an unrecognized deployment mode but valid credentials. -/
def bogusModeWithParams : RawInputs :=
  { ctxDeploymentMode := some "bogus", ctxDomainName := some "x.example.com",
    ctxAdminPassword := some "p" }

/-- Valid complete-mode invocation with an existing certificate ARN and the
`createCertificate` flag both supplied. -/
def bothCertInputs : RawInputs :=
  { ctxDomainName := some "x.example.com", ctxAdminPassword := some "p",
    ctxCertificateArn := some "arn:aws:acm:us-east-1:1:certificate/c",
    ctxCreateCertificate := some "true" }

/-! ## Theorems -/

/-- First-truthy-wins behavior of the `ctx || env || default` merge. -/
theorem mergeD_spec (a b : Option String) (d : String) :
    (truthy a = true → mergeD a b d = a.getD "") ∧
    (truthy a = false → truthy b = true → mergeD a b d = b.getD "") ∧
    (truthy a = false → truthy b = false → mergeD a b d = d) := by
  refine ⟨fun h => ?_, fun h h2 => ?_, fun h h2 => ?_⟩ <;> simp [mergeD, h] <;> simp [h2]

/-- C3: in the graph composed for a valid application-only invocation, the
auth-server and registry workloads reference the storage claim name
`efs-claim`, while the only `PersistentVolumeClaim` declared in the graph
is named `efs-pvc`: both references dangle. -/
theorem c3_dangling_claim_references :
    (cdkApp appOnlyInputs sampleEntropy).map danglingClaimRefs =
      .ok [("AuthServerDeployment", "efs-claim"), ("RegistryDeployment", "efs-claim")] := by
  rfl

/-- C1 counterexample: for one fixed valid input, two invocations with
different ambient entropy (`Math.random()` / `Date.now()` results) produce
different deployment graphs. -/
theorem c1_determinism_counterexample :
    deploymentMode appOnlyInputs = "application-only" ∧
    cdkApp appOnlyInputs sampleEntropy ≠ cdkApp appOnlyInputs sampleEntropy2 := by
  exact ⟨rfl, by decide⟩

/-- C4 counterexample: an application-only invocation whose
`efsFileSystemId` resolves empty fails, but with the `domainName` error —
not an error identifying the missing storage reference — because the
required-credential checks run before the mode dispatch. -/
theorem c4_missing_efs_counterexample :
    deploymentMode appOnlyNoParams = "application-only" ∧
    truthy (efsFileSystemId appOnlyNoParams) = false ∧
    cdkApp appOnlyNoParams sampleEntropy = .error .missingDomainName ∧
    cdkApp appOnlyNoParams sampleEntropy ≠ .error .missingEfsFileSystemId := by
  exact ⟨rfl, rfl, rfl, by decide⟩

/-- C5 counterexample: a complete-mode invocation in which `adminPassword`
resolves empty does not fail with an error naming `adminPassword` when
`domainName` is also empty — the `domainName` check fires first. -/
theorem c5_required_param_counterexample :
    deploymentMode completeNoParams = "complete" ∧
    truthy (adminPassword completeNoParams) = false ∧
    cdkApp completeNoParams sampleEntropy = .error .missingDomainName ∧
    cdkApp completeNoParams sampleEntropy ≠ .error .missingAdminPassword := by
  exact ⟨rfl, rfl, rfl, by decide⟩

/-- C6 counterexample: with no context value and the environment variable
`CREATE_CERTIFICATE` set to the non-empty string `yes`, the resolved
`createCertificate` flag is `false` — the non-empty environment value does
not win, because the code compares it against the literal `true`. -/
theorem c6_precedence_counterexample :
    envCreateYesInputs.ctxCreateCertificate = none ∧
    envCreateYesInputs.envCreateCertificate = some "yes" ∧
    truthy envCreateYesInputs.envCreateCertificate = true ∧
    createCertificate envCreateYesInputs = false := by
  exact ⟨rfl, rfl, rfl, rfl⟩

/-- C7 counterexample: a complete-mode invocation whose `maxAzs` does not
parse as an integer does not fail — the pipeline succeeds and produces a
graph. -/
theorem c7_parse_failure_counterexample :
    deploymentMode badMaxAzsInputs = "complete" ∧
    maxAzsRaw badMaxAzsInputs = "abc" ∧
    maxAzs badMaxAzsInputs = none ∧
    (∃ g, cdkApp badMaxAzsInputs sampleEntropy = .ok g) := by
  exact ⟨rfl, rfl, by decide, _, rfl⟩

/-- C8 counterexample: an invocation with the unrecognized mode `bogus`
and no `domainName` fails with the `domainName` error, not with an error
naming the invalid mode — the credential checks precede the mode check. -/
theorem c8_invalid_mode_counterexample :
    deploymentMode bogusModeInputs = "bogus" ∧
    cdkApp bogusModeInputs sampleEntropy = .error .missingDomainName ∧
    cdkApp bogusModeInputs sampleEntropy ≠ .error (.invalidDeploymentMode "bogus") := by
  exact ⟨rfl, rfl, by decide⟩

/-- C4 (amended): an application-only invocation whose `efsFileSystemId`
resolves empty or absent always fails with a fatal startup error and
produces no resource declaration; the error identifies the missing storage
reference whenever the earlier-checked `domainName` and `adminPassword`
resolve non-empty. -/
theorem c4_missing_efs_fails (i : RawInputs) (e : Entropy)
    (hm : deploymentMode i = "application-only")
    (hefs : truthy (efsFileSystemId i) = false) :
    (∃ err, cdkApp i e = .error err) ∧
    (truthy (domainName i) = true → truthy (adminPassword i) = true →
      cdkApp i e = .error .missingEfsFileSystemId) := by
  cases hd : truthy (domainName i) <;> cases ha : truthy (adminPassword i) <;>
    simp [cdkApp, cdkAppFull, hm, hefs, hd, ha, Except.map]

/-- C4 witness. -/
theorem c4_missing_efs_fails_witness :
    (∃ err, cdkApp appOnlyNoEfs sampleEntropy = .error err) ∧
    (truthy (domainName appOnlyNoEfs) = true →
     truthy (adminPassword appOnlyNoEfs) = true →
      cdkApp appOnlyNoEfs sampleEntropy = .error .missingEfsFileSystemId) :=
  c4_missing_efs_fails appOnlyNoEfs sampleEntropy rfl rfl

/-- C5 (amended): in complete mode, an empty `domainName` always fails
with the error naming `domainName` (it is checked first), producing no
declaration; an empty `adminPassword` always fails fatally, and the error
names `adminPassword` whenever `domainName` resolves non-empty. -/
theorem c5_required_parameters (i : RawInputs) (e : Entropy)
    (hm : deploymentMode i = "complete") :
    (truthy (domainName i) = false → cdkApp i e = .error .missingDomainName) ∧
    (truthy (adminPassword i) = false →
      (∃ err, cdkApp i e = .error err) ∧
      (truthy (domainName i) = true →
        cdkApp i e = .error .missingAdminPassword)) := by
  cases hd : truthy (domainName i) <;> cases ha : truthy (adminPassword i) <;>
    simp [cdkApp, cdkAppFull, hm, hd, ha, Except.map]

/-- C5 witness. -/
theorem c5_required_parameters_witness :
    (truthy (domainName completeNoAp) = false →
      cdkApp completeNoAp sampleEntropy = .error .missingDomainName) ∧
    (truthy (adminPassword completeNoAp) = false →
      (∃ err, cdkApp completeNoAp sampleEntropy = .error err) ∧
      (truthy (domainName completeNoAp) = true →
        cdkApp completeNoAp sampleEntropy = .error .missingAdminPassword)) :=
  c5_required_parameters completeNoAp sampleEntropy rfl

/-- C8 (amended): any invocation whose resolved mode string is none of the
three recognized modes fails with a thrown startup error and constructs no
stack or declaration; the error names the invalid mode whenever
`domainName` and `adminPassword` resolve non-empty. -/
theorem c8_invalid_mode_fails (i : RawInputs) (e : Entropy)
    (h1 : deploymentMode i ≠ "complete")
    (h2 : deploymentMode i ≠ "infrastructure-only")
    (h3 : deploymentMode i ≠ "application-only") :
    (∃ err, cdkApp i e = .error err) ∧
    (truthy (domainName i) = true → truthy (adminPassword i) = true →
      cdkApp i e = .error (.invalidDeploymentMode (deploymentMode i))) := by
  cases hd : truthy (domainName i) <;> cases ha : truthy (adminPassword i) <;>
    simp [cdkApp, cdkAppFull, h1, h2, h3, hd, ha, Except.map]

/-- C8 witness. -/
theorem c8_invalid_mode_fails_witness :
    (∃ err, cdkApp bogusModeWithParams sampleEntropy = .error err) ∧
    (truthy (domainName bogusModeWithParams) = true →
     truthy (adminPassword bogusModeWithParams) = true →
      cdkApp bogusModeWithParams sampleEntropy =
        .error (.invalidDeploymentMode (deploymentMode bogusModeWithParams))) :=
  c8_invalid_mode_fails bogusModeWithParams sampleEntropy
    (by decide) (by decide) (by decide)

/-- C6 (amended): each string parameter resolves by first-non-empty
precedence — explicit context value, then environment value, then the
declared default (`complete`, `mcp-gateway-registry`, `10.0.0.0/16`, and
`3` for mode, cluster name, VPC CIDR and `maxAzs` respectively) — except
`createCertificate`: a non-empty context value forces it on, but otherwise
it is on exactly when the environment value equals the literal `true`
(a non-empty environment value such as `yes` is ignored). -/
theorem c6_parameter_precedence (i : RawInputs) :
    ((truthy i.ctxDeploymentMode = true →
        deploymentMode i = i.ctxDeploymentMode.getD "") ∧
     (truthy i.ctxDeploymentMode = false → truthy i.envDeploymentMode = true →
        deploymentMode i = i.envDeploymentMode.getD "") ∧
     (truthy i.ctxDeploymentMode = false → truthy i.envDeploymentMode = false →
        deploymentMode i = "complete")) ∧
    ((truthy i.ctxClusterName = true →
        clusterName i = i.ctxClusterName.getD "") ∧
     (truthy i.ctxClusterName = false → truthy i.envClusterName = true →
        clusterName i = i.envClusterName.getD "") ∧
     (truthy i.ctxClusterName = false → truthy i.envClusterName = false →
        clusterName i = "mcp-gateway-registry")) ∧
    ((truthy i.ctxVpcCidr = true → vpcCidr i = i.ctxVpcCidr.getD "") ∧
     (truthy i.ctxVpcCidr = false → truthy i.envVpcCidr = true →
        vpcCidr i = i.envVpcCidr.getD "") ∧
     (truthy i.ctxVpcCidr = false → truthy i.envVpcCidr = false →
        vpcCidr i = "10.0.0.0/16")) ∧
    (truthy i.ctxMaxAzs = false → truthy i.envMaxAzs = false →
        maxAzs i = some 3) ∧
    ((truthy i.ctxCreateCertificate = true → createCertificate i = true) ∧
     (truthy i.ctxCreateCertificate = false →
        createCertificate i = (i.envCreateCertificate == some "true"))) := by
  refine ⟨mergeD_spec _ _ _, mergeD_spec _ _ _, mergeD_spec _ _ _,
          fun h1 h2 => ?_, fun h => ?_, fun h => ?_⟩
  · have hr : maxAzsRaw i = "3" := (mergeD_spec _ _ _).2.2 h1 h2
    rw [maxAzs, hr]; decide
  · simp [createCertificate, h]
  · simp [createCertificate, h]

/-- C6 witness. -/
theorem c6_parameter_precedence_witness :
    ((truthy envCreateYesInputs.ctxDeploymentMode = true →
        deploymentMode envCreateYesInputs = envCreateYesInputs.ctxDeploymentMode.getD "") ∧
     (truthy envCreateYesInputs.ctxDeploymentMode = false →
      truthy envCreateYesInputs.envDeploymentMode = true →
        deploymentMode envCreateYesInputs = envCreateYesInputs.envDeploymentMode.getD "") ∧
     (truthy envCreateYesInputs.ctxDeploymentMode = false →
      truthy envCreateYesInputs.envDeploymentMode = false →
        deploymentMode envCreateYesInputs = "complete")) ∧
    ((truthy envCreateYesInputs.ctxClusterName = true →
        clusterName envCreateYesInputs = envCreateYesInputs.ctxClusterName.getD "") ∧
     (truthy envCreateYesInputs.ctxClusterName = false →
      truthy envCreateYesInputs.envClusterName = true →
        clusterName envCreateYesInputs = envCreateYesInputs.envClusterName.getD "") ∧
     (truthy envCreateYesInputs.ctxClusterName = false →
      truthy envCreateYesInputs.envClusterName = false →
        clusterName envCreateYesInputs = "mcp-gateway-registry")) ∧
    ((truthy envCreateYesInputs.ctxVpcCidr = true →
        vpcCidr envCreateYesInputs = envCreateYesInputs.ctxVpcCidr.getD "") ∧
     (truthy envCreateYesInputs.ctxVpcCidr = false →
      truthy envCreateYesInputs.envVpcCidr = true →
        vpcCidr envCreateYesInputs = envCreateYesInputs.envVpcCidr.getD "") ∧
     (truthy envCreateYesInputs.ctxVpcCidr = false →
      truthy envCreateYesInputs.envVpcCidr = false →
        vpcCidr envCreateYesInputs = "10.0.0.0/16")) ∧
    (truthy envCreateYesInputs.ctxMaxAzs = false →
     truthy envCreateYesInputs.envMaxAzs = false →
        maxAzs envCreateYesInputs = some 3) ∧
    ((truthy envCreateYesInputs.ctxCreateCertificate = true →
        createCertificate envCreateYesInputs = true) ∧
     (truthy envCreateYesInputs.ctxCreateCertificate = false →
        createCertificate envCreateYesInputs =
          (envCreateYesInputs.envCreateCertificate == some "true"))) :=
  c6_parameter_precedence envCreateYesInputs

/-- A defaulted merge never yields the empty string when its default is
non-empty. -/
theorem mergeD_ne_empty (a b : Option String) (d : String)
    (hd : (d == "") = false) : ((mergeD a b d) == "") = false := by
  unfold mergeD
  split_ifs with h1 h2
  · cases a with
    | none => simp [truthy] at h1
    | some s => simpa [truthy] using h1
  · cases b with
    | none => simp [truthy] at h2
    | some s => simpa [truthy] using h2
  · exact hd

/-- C7 (amended): a complete-mode invocation whose `maxAzs` does not parse
as an integer does not fail: `parseInt` yields `NaN`, no
`InvalidParameterType` error exists in the program, composition proceeds,
and the VPC declaration falls back to the default of 3 availability zones
(`NaN` is falsy in `props.maxAzs || 3`), so no non-numeric value reaches
the emitted declaration. -/
theorem c7_nan_maxazs_defaults (i : RawInputs) (e : Entropy)
    (hm : deploymentMode i = "complete")
    (hdn : truthy (domainName i) = true) (hap : truthy (adminPassword i) = true)
    (hnan : maxAzs i = none) :
    ∃ g, cdkApp i e = .ok g ∧
      { logicalId := "McpVpc", kind := "Vpc",
        payload := [("cidr", vpcCidr i), ("maxAzs", "3"), ("natGateways", "1")] } ∈ g := by
  refine ⟨(completeModeResult i "McpgwCompleteInfrastructureStack" none e).2, ?_, ?_⟩
  · simp [cdkApp, cdkAppFull, hm, hdn, hap, Except.map]
  · have hcid : ((vpcCidr i) == "") = false := mergeD_ne_empty _ _ _ rfl
    have h3 : toString (3 : Int) = "3" := by decide
    cases hca : truthy (certificateArn i) <;>
      simp [completeModeResult, mcpgwCompleteInfrastructureStack, completeInfraDecls,
            completeStackCertificate, hca, hnan, jsNumOr, propOr, truthy, hcid, h3]

/-- C7 witness. -/
theorem c7_nan_maxazs_defaults_witness :
    ∃ g, cdkApp badMaxAzsInputs sampleEntropy = .ok g ∧
      { logicalId := "McpVpc", kind := "Vpc",
        payload := [("cidr", vpcCidr badMaxAzsInputs), ("maxAzs", "3"),
                    ("natGateways", "1")] } ∈ g :=
  c7_nan_maxazs_defaults badMaxAzsInputs sampleEntropy rfl rfl rfl (by decide)

/-- C9: whenever `certificateArn` resolves to no (truthy) value and the
`createCertificate` flag is unset, every mode that accepts the input takes
the new-certificate path: the composition succeeds and declares a new
`McpGatewayCertificate` resource for the resolved domain name (directly via
`setupCertificate` in application-only mode; via the flag forced to `true`
— and the complete stack's own `certificateArn` test — in the other two
modes). -/
theorem c9_new_certificate_path (i : RawInputs) (e : Entropy)
    (hdn : truthy (domainName i) = true) (hap : truthy (adminPassword i) = true)
    (hca : truthy (certificateArn i) = false) (hcc : createCertificate i = false)
    (hmode : deploymentMode i = "complete" ∨
             deploymentMode i = "infrastructure-only" ∨
             (deploymentMode i = "application-only" ∧
              truthy (efsFileSystemId i) = true)) :
    ∃ g, cdkApp i e = .ok g ∧
      ∃ r ∈ g, r.logicalId = "McpGatewayCertificate" ∧
        ("domainName", (domainName i).getD "") ∈ r.payload := by
  rcases hmode with hm | hm | ⟨hm, hefs⟩
  · refine ⟨(completeModeResult i "McpgwCompleteInfrastructureStack" none e).2,
      by simp [cdkApp, cdkAppFull, hm, hdn, hap, Except.map], ?_⟩
    refine ⟨mcpGatewayCertComplete ((domainName i).getD "") (hostedZoneId i),
      ?_, rfl, by simp [mcpGatewayCertComplete]⟩
    simp [completeModeResult, mcpgwCompleteInfrastructureStack,
          completeInfraDecls, completeStackCertificate, hca]
  · refine ⟨(completeModeResult i "McpgwInfrastructureStackFresh" (some false) e).2,
      by simp [cdkApp, cdkAppFull, hm, hdn, hap, Except.map], ?_⟩
    refine ⟨mcpGatewayCertComplete ((domainName i).getD "") (hostedZoneId i),
      ?_, rfl, by simp [mcpGatewayCertComplete]⟩
    simp [completeModeResult, mcpgwCompleteInfrastructureStack,
          completeInfraDecls, completeStackCertificate, hca]
  · refine ⟨([mcpGatewayCertAppOnly ((domainName i).getD "") (hostedZoneId i)] ++
      deployMicroservicesArchitectureDecls (some (clusterName i))
        ((domainName i).getD "") ((efsFileSystemId i).getD "")
        ((adminPassword i).getD "") none i.envCognitoClientId
        i.envCognitoClientSecret i.envCognitoUserPoolId (region i)
        (.created ((domainName i).getD "")) e), ?_, ?_⟩
    · simp [cdkApp, cdkAppFull, hm, hdn, hap, hefs, appOnlyModeResult,
            mcpgwMicroservicesCdkStack, setupCertificate, hca, Except.map]
    · exact ⟨mcpGatewayCertAppOnly ((domainName i).getD "") (hostedZoneId i),
        by simp, rfl, by simp [mcpGatewayCertAppOnly]⟩

/-- C9 witness. -/
theorem c9_new_certificate_path_witness :
    ∃ g, cdkApp completeInputs sampleEntropy = .ok g ∧
      ∃ r ∈ g, r.logicalId = "McpGatewayCertificate" ∧
        ("domainName", (domainName completeInputs).getD "") ∈ r.payload :=
  c9_new_certificate_path completeInputs sampleEntropy rfl rfl rfl rfl (Or.inl rfl)

/-- C10: whenever `certificateArn` resolves to a non-empty value and the
`createCertificate` flag is also set, every accepting mode uses the
certificate imported from that ARN and declares no new certificate
resource — both stacks test `certificateArn` first and only consult the
flag when it is absent. -/
theorem c10_existing_certificate_wins (i : RawInputs) (e : Entropy)
    (hdn : truthy (domainName i) = true) (hap : truthy (adminPassword i) = true)
    (hca : truthy (certificateArn i) = true) (hcc : createCertificate i = true)
    (hmode : deploymentMode i = "complete" ∨
             deploymentMode i = "infrastructure-only" ∨
             (deploymentMode i = "application-only" ∧
              truthy (efsFileSystemId i) = true)) :
    ∃ g, cdkAppFull i e =
        .ok (.imported ((certificateArn i).getD ""), g) ∧
      g.all (fun r => !(r.logicalId == "McpGatewayCertificate")) = true := by
  rcases hmode with hm | hm | ⟨hm, hefs⟩
  · refine ⟨(completeModeResult i "McpgwCompleteInfrastructureStack" none e).2, ?_, ?_⟩
    · rw [show cdkAppFull i e =
          .ok (completeModeResult i "McpgwCompleteInfrastructureStack" none e) from
            by simp [cdkAppFull, hm, hdn, hap],
        ← show (completeModeResult i "McpgwCompleteInfrastructureStack" none e).1 =
          CertRef.imported ((certificateArn i).getD "") from
            by simp [completeModeResult, mcpgwCompleteInfrastructureStack,
                     completeInfraDecls, completeStackCertificate, hca]]
    · simp [completeModeResult, mcpgwCompleteInfrastructureStack,
            completeInfraDecls, completeStackCertificate, completeAppDecls,
            efsPvcDecls, authServerDecls, registryDecls, currentTimeServerDecls,
            finInfoServerDecls, fakeToolsServerDecls, mcpGatewayServerDecls,
            albIngressDecls, mcpRegistryNamespaceDecl, mcpGatewayConfigMapDecl,
            mcpGatewaySecretDecl, hca]
  · refine ⟨(completeModeResult i "McpgwInfrastructureStackFresh" (some false) e).2, ?_, ?_⟩
    · rw [show cdkAppFull i e =
          .ok (completeModeResult i "McpgwInfrastructureStackFresh" (some false) e) from
            by simp [cdkAppFull, hm, hdn, hap],
        ← show (completeModeResult i "McpgwInfrastructureStackFresh" (some false) e).1 =
          CertRef.imported ((certificateArn i).getD "") from
            by simp [completeModeResult, mcpgwCompleteInfrastructureStack,
                     completeInfraDecls, completeStackCertificate, hca]]
    · simp [completeModeResult, mcpgwCompleteInfrastructureStack,
            completeInfraDecls, completeStackCertificate, completeAppDecls,
            efsPvcDecls, authServerDecls, registryDecls, currentTimeServerDecls,
            finInfoServerDecls, fakeToolsServerDecls, mcpGatewayServerDecls,
            albIngressDecls, mcpRegistryNamespaceDecl, mcpGatewayConfigMapDecl,
            mcpGatewaySecretDecl, hca]
  · refine ⟨deployMicroservicesArchitectureDecls (some (clusterName i))
        ((domainName i).getD "") ((efsFileSystemId i).getD "")
        ((adminPassword i).getD "") none i.envCognitoClientId
        i.envCognitoClientSecret i.envCognitoUserPoolId (region i)
        (.imported ((certificateArn i).getD "")) e, ?_, ?_⟩
    · simp [cdkAppFull, hm, hdn, hap, hefs, appOnlyModeResult,
            mcpgwMicroservicesCdkStack, setupCertificate, hca]
    · simp [deployMicroservicesArchitectureDecls, efsPvcDecls, authServerDecls,
            registryDecls, currentTimeServerDecls, finInfoServerDecls,
            fakeToolsServerDecls, mcpGatewayServerDecls, albIngressDecls,
            mcpRegistryNamespaceDecl, mcpGatewayConfigMapDecl, mcpGatewaySecretDecl]

/-- C10 witness. -/
theorem c10_existing_certificate_wins_witness :
    ∃ g, cdkAppFull bothCertInputs sampleEntropy =
        .ok (.imported ((certificateArn bothCertInputs).getD ""), g) ∧
      g.all (fun r => !(r.logicalId == "McpGatewayCertificate")) = true :=
  c10_existing_certificate_wins bothCertInputs sampleEntropy rfl rfl rfl rfl
    (Or.inl rfl)

/-- The dependency-relevant projection of the infrastructure declarations
does not depend on the stack id (which only reaches service-account
names inside payloads). -/
theorem edgeProj_completeInfraDecls (sn sn' dn : String) (ca hz vc : Option String)
    (maz : Option Int) (cnP kv upnP : Option String) (cb lo : Option (List String)) :
    (completeInfraDecls sn dn ca hz vc maz cnP kv upnP cb lo).2.map edgeProj =
    (completeInfraDecls sn' dn ca hz vc maz cnP kv upnP cb lo).2.map edgeProj := by
  cases hca : truthy ca <;>
    simp [completeInfraDecls, completeStackCertificate, mcpGatewayCertComplete,
          hca, edgeProj]

/-- The infrastructure-only stack's graph projects to a prefix of the
complete stack's graph. -/
theorem completeModeResult_edge_prefix (i : RawInputs) (e1 e2 : Entropy) :
    ∃ rest,
      (completeModeResult i "McpgwInfrastructureStackFresh" (some false) e1).2.map edgeProj
        ++ rest =
      (completeModeResult i "McpgwCompleteInfrastructureStack" none e2).2.map edgeProj := by
  unfold completeModeResult mcpgwCompleteInfrastructureStack
  simp only [ne_eq, reduceCtorEq, not_false_eq_true, bne_iff_ne, if_true, if_false,
             bne_self_eq_false, Bool.false_eq_true, List.append_nil, List.map_append]
  exact ⟨_, by rw [edgeProj_completeInfraDecls]⟩

/-- C2: for raw inputs on which both modes succeed (resolved `domainName`
and `adminPassword` non-empty — the complete stack construction itself
cannot fail), the infrastructure-only graph is a prefix of the complete
graph under the dependency-relevant projection: same logical names and
same outgoing edges, with the complete graph's extra declarations only
after that prefix. -/
theorem c2_mode_prefix (i : RawInputs) (e1 e2 : Entropy)
    (hdn : truthy (domainName i) = true) (hap : truthy (adminPassword i) = true) :
    ∃ g1 g2 rest,
      cdkApp (withMode i "infrastructure-only") e1 = .ok g1 ∧
      cdkApp (withMode i "complete") e2 = .ok g2 ∧
      g1.map edgeProj ++ rest = g2.map edgeProj := by
  have h1 : cdkApp (withMode i "infrastructure-only") e1 =
      .ok (completeModeResult i "McpgwInfrastructureStackFresh" (some false) e1).2 := by
    have hm : deploymentMode (withMode i "infrastructure-only") = "infrastructure-only" := rfl
    have hd : truthy (domainName (withMode i "infrastructure-only")) = true := hdn
    have ha : truthy (adminPassword (withMode i "infrastructure-only")) = true := hap
    have hw : completeModeResult (withMode i "infrastructure-only")
        "McpgwInfrastructureStackFresh" (some false) e1 =
        completeModeResult i "McpgwInfrastructureStackFresh" (some false) e1 := rfl
    simp [cdkApp, cdkAppFull, hm, hd, ha, hw, Except.map]
  have h2 : cdkApp (withMode i "complete") e2 =
      .ok (completeModeResult i "McpgwCompleteInfrastructureStack" none e2).2 := by
    have hm : deploymentMode (withMode i "complete") = "complete" := rfl
    have hd : truthy (domainName (withMode i "complete")) = true := hdn
    have ha : truthy (adminPassword (withMode i "complete")) = true := hap
    have hw : completeModeResult (withMode i "complete")
        "McpgwCompleteInfrastructureStack" none e2 =
        completeModeResult i "McpgwCompleteInfrastructureStack" none e2 := rfl
    simp [cdkApp, cdkAppFull, hm, hd, ha, hw, Except.map]
  obtain ⟨rest, hrest⟩ := completeModeResult_edge_prefix i e1 e2
  exact ⟨_, _, rest, h1, h2, hrest⟩

/-- C2 witness. -/
theorem c2_mode_prefix_witness :
    ∃ g1 g2 rest,
      cdkApp (withMode completeInputs "infrastructure-only") sampleEntropy = .ok g1 ∧
      cdkApp (withMode completeInputs "complete") sampleEntropy2 = .ok g2 ∧
      g1.map edgeProj ++ rest = g2.map edgeProj :=
  c2_mode_prefix completeInputs sampleEntropy sampleEntropy2 rfl rfl

/-- `scrubSecrets` distributes over concatenation. -/
theorem scrubSecrets_append (a b : List Resource) :
    scrubSecrets (a ++ b) = scrubSecrets a ++ scrubSecrets b := by
  simp [scrubSecrets]

/-- The microservices architecture is entropy-independent after scrubbing
the `SECRET_KEY` entries. -/
theorem scrub_archDecls (cnP : Option String) (dn efs ap : String)
    (auP a b c : Option String) (r : String) (cert : CertRef) (e e' : Entropy) :
    scrubSecrets (deployMicroservicesArchitectureDecls cnP dn efs ap auP a b c r cert e) =
    scrubSecrets (deployMicroservicesArchitectureDecls cnP dn efs ap auP a b c r cert e') := by
  simp [deployMicroservicesArchitectureDecls, scrubSecrets, efsPvcDecls,
        authServerDecls, registryDecls, currentTimeServerDecls, finInfoServerDecls,
        fakeToolsServerDecls, mcpGatewayServerDecls, albIngressDecls,
        mcpRegistryNamespaceDecl, mcpGatewayConfigMapDecl, mcpGatewaySecretDecl,
        secretKeyOf, configMapSecretKey]

/-- The complete stack's application block is entropy-independent after
scrubbing the `SECRET_KEY` entries. -/
theorem scrub_completeAppDecls (sn dn ap : String) (auP cnP : Option String)
    (r : String) (cert : CertRef) (e e' : Entropy) :
    scrubSecrets (completeAppDecls sn dn ap auP cnP r cert e) =
    scrubSecrets (completeAppDecls sn dn ap auP cnP r cert e') := by
  simp [completeAppDecls, scrubSecrets, efsPvcDecls, authServerDecls,
        registryDecls, currentTimeServerDecls, finInfoServerDecls,
        fakeToolsServerDecls, mcpGatewayServerDecls, albIngressDecls,
        mcpRegistryNamespaceDecl, mcpGatewayConfigMapDecl, mcpGatewaySecretDecl,
        secretKeyOf, configMapSecretKey]

/-- The complete stack's whole graph is entropy-independent after
scrubbing. -/
theorem scrub_completeStack (sn dn ap : String) (auP hz ca : Option String)
    (cc : Bool) (vc : Option String) (maz : Option Int) (cnP kv upnP : Option String)
    (cb lo : Option (List String)) (dep : Option Bool) (r : String) (e e' : Entropy) :
    scrubSecrets (mcpgwCompleteInfrastructureStack sn dn ap auP hz ca cc vc maz
      cnP kv upnP cb lo dep r e).2 =
    scrubSecrets (mcpgwCompleteInfrastructureStack sn dn ap auP hz ca cc vc maz
      cnP kv upnP cb lo dep r e').2 := by
  unfold mcpgwCompleteInfrastructureStack
  cases h : completeInfraDecls sn dn ca hz vc maz cnP kv upnP cb lo with
  | mk cert infra =>
    simp only [scrubSecrets_append]
    congr 1
    split
    · exact scrub_completeAppDecls sn dn ap auP cnP r cert e e'
    · rfl

/-- Mapping twice over an `Except`, first projecting the graph. -/
theorem exceptMap_snd (x : Except PipelineError (CertRef × List Resource))
    (f : List Resource → List Resource) :
    (x.map Prod.snd).map f = x.map (fun p => f p.2) := by
  cases x <;> rfl

/-- The microservices stack's result is entropy-independent after
scrubbing. -/
theorem scrub_microStack (cnP : Option String) (dn efs : String)
    (ca : Option String) (ap : String) (auP hz : Option String) (cc : Bool)
    (a b c : Option String) (r : String) (e e' : Entropy) :
    (mcpgwMicroservicesCdkStack cnP dn efs ca ap auP hz cc a b c r e).map
      (fun p => scrubSecrets p.2) =
    (mcpgwMicroservicesCdkStack cnP dn efs ca ap auP hz cc a b c r e').map
      (fun p => scrubSecrets p.2) := by
  unfold mcpgwMicroservicesCdkStack
  cases h : setupCertificate ca cc dn hz with
  | error err => rfl
  | ok p =>
    cases p with
    | mk cert cd =>
      simp only [Except.map, scrubSecrets_append]
      rw [scrub_archDecls cnP dn efs ap auP a b c r cert e e']

/-- C1 (amended): for identical raw inputs, repeated invocations produce
graphs that are byte-identical except for the entropy-derived `SECRET_KEY`
values — the ConfigMap's `SECRET_KEY` (from `Date.now()`) and the
`secretKey` environment binding of the auth-server and registry workloads
(from `Math.random()`); after blanking exactly those payload values, the
two graphs (and any error outcome) coincide for every pair of entropy
draws. -/
theorem c1_determinism_modulo_secrets (i : RawInputs) (e1 e2 : Entropy) :
    (cdkApp i e1).map scrubSecrets = (cdkApp i e2).map scrubSecrets := by
  cases hd : truthy (domainName i)
  · simp [cdkApp, cdkAppFull, hd]
  cases ha : truthy (adminPassword i)
  · simp [cdkApp, cdkAppFull, hd, ha]
  by_cases h1 : deploymentMode i = "complete"
  · have key : scrubSecrets
        (completeModeResult i "McpgwCompleteInfrastructureStack" none e1).2 =
        scrubSecrets (completeModeResult i "McpgwCompleteInfrastructureStack" none e2).2 := by
      unfold completeModeResult
      exact scrub_completeStack _ _ _ _ _ _ _ _ _ _ _ _ _ _ _ _ e1 e2
    simp [cdkApp, cdkAppFull, hd, ha, h1, Except.map, key]
  by_cases h2 : deploymentMode i = "infrastructure-only"
  · have key : scrubSecrets
        (completeModeResult i "McpgwInfrastructureStackFresh" (some false) e1).2 =
        scrubSecrets (completeModeResult i "McpgwInfrastructureStackFresh" (some false) e2).2 := by
      unfold completeModeResult
      exact scrub_completeStack _ _ _ _ _ _ _ _ _ _ _ _ _ _ _ _ e1 e2
    simp [cdkApp, cdkAppFull, hd, ha, h1, h2, Except.map, key]
  by_cases h3 : deploymentMode i = "application-only"
  · cases hefs : truthy (efsFileSystemId i)
    · simp [cdkApp, cdkAppFull, hd, ha, h1, h2, h3, hefs]
    · have key : (appOnlyModeResult i e1).map (fun p => scrubSecrets p.2) =
          (appOnlyModeResult i e2).map (fun p => scrubSecrets p.2) := by
        unfold appOnlyModeResult
        exact scrub_microStack _ _ _ _ _ _ _ _ _ _ _ _ e1 e2
      have lhs : (cdkApp i e1).map scrubSecrets =
          (appOnlyModeResult i e1).map (fun p => scrubSecrets p.2) := by
        rw [cdkApp, ← exceptMap_snd]
        congr 1
        simp [cdkAppFull, hd, ha, h1, h2, h3, hefs]
      have rhs : (cdkApp i e2).map scrubSecrets =
          (appOnlyModeResult i e2).map (fun p => scrubSecrets p.2) := by
        rw [cdkApp, ← exceptMap_snd]
        congr 1
        simp [cdkAppFull, hd, ha, h1, h2, h3, hefs]
      rw [lhs, rhs, key]
  · simp [cdkApp, cdkAppFull, hd, ha, h1, h2, h3]

end Mcpgw
